import Mathlib

/-
Verification of the customer-directory web service in src/main.py
(FastAPI handlers over a MongoDB collection).

The embedding models:
  - the Python values that can occur under the Mongo "_id" key, with
    Python truthiness and str conversion (for _serialize_customer);
  - customer documents as records of optional fields;
  - the search handler, including the $regex/$or filter it builds and the
    MongoDB matching semantics for the pattern fragment the handler can
    generate (literal characters and the wildcard, caseless via option i);
  - the seed handler with its dedup-by-email loop;
  - the /test diagnostic handler with its environment-variable presence
    checks.
The store itself (module database, not part of src/) is abstracted as a
Bool availability flag plus a list of documents in natural order; the
collection operations invoked by the handlers (find with a filter and a
limit, find_one by email equality, insert_one appending with a fresh id,
count_documents of the empty filter, list_collection_names) are modelled
directly on their MongoDB semantics.
-/

namespace CustomerService

/-- Python value stored under the "_id" key of a document: None, an int,
a plain string, or a storage-assigned ObjectId (represented by its hex
string form). -/
inductive BVal where
  | vNone : BVal
  | vInt (n : Int) : BVal
  | vStr (s : String) : BVal
  | vOid (s : String) : BVal
deriving DecidableEq, Repr

/-- Python truthiness of a BVal: None, 0 and the empty string are falsy. -/
def pyTruthy : BVal → Bool
  | .vNone => false
  | .vInt n => n != 0
  | .vStr s => s != ""
  | .vOid _ => true

/-- Python str() of a BVal; str of an ObjectId is its hex string. -/
def pyStr : BVal → String
  | .vNone => "None"
  | .vInt n => toString n
  | .vStr s => s
  | .vOid s => s

/-- Python truthiness of an optional value: dict.get of a missing key gives
None, which is falsy. -/
def pyTruthyOpt : Option BVal → Bool
  | none => false
  | some v => pyTruthy v

/-- A stored customer document: the "_id" key may be absent or hold any
BVal; the six data fields are optional strings (absent key = none). -/
structure Doc where
  _id : Option BVal
  first_name : Option String
  last_name : Option String
  phone : Option String
  address : Option String
  postcode : Option String
  email : Option String
deriving DecidableEq, Repr

/-- The response model CustomerOut of src/main.py: id, first_name and
last_name are plain strings, the other four fields are nullable. -/
structure CustomerOut where
  id : String
  first_name : String
  last_name : String
  phone : Option String
  address : Option String
  postcode : Option String
  email : Option String
deriving DecidableEq, Repr

/-- Embedding of _serialize_customer (src/main.py lines 80 to 89):
id is str of the "_id" value when that value is truthy and the empty
string otherwise; first_name and last_name default to the empty string;
the remaining fields pass through as optionals. -/
def _serialize_customer (doc : Doc) : CustomerOut :=
  { id := match doc._id with
          | some v => if pyTruthy v then pyStr v else ""
          | none => ""
    first_name := doc.first_name.getD ""
    last_name := doc.last_name.getD ""
    phone := doc.phone
    address := doc.address
    postcode := doc.postcode
    email := doc.email }

/-! ## Regex matching model for the search filter

The search handler builds the filter value `{"$regex": q, "$options": "i"}`
from the raw query string, without escaping.  MongoDB interprets q as a
PCRE pattern.  We model the fragment of PCRE that such a pattern exercises
when q consists of literal characters and the wildcard character: each
character of q becomes one token, the wildcard matches any character other
than the newline, a literal matches caselessly, and the whole pattern
matches a text if it matches at some position (an unanchored search).
Theorems only invoke this model on patterns inside that fragment. -/

/-- One token of the modelled pattern fragment. -/
inductive RTok where
  | dot : RTok
  | lit (c : Char) : RTok
deriving DecidableEq, Repr

/-- Tokenize a pattern: the wildcard character becomes dot, everything
else a literal. -/
def parseList (q : List Char) : List RTok :=
  q.map (fun c => if c = '.' then RTok.dot else RTok.lit c)

/-- Tokenize the raw query string of the handler. -/
def parseRegex (q : String) : List RTok :=
  parseList q.data

/-- Caseless single-token match: dot matches any character except the
newline; a literal compares case-folded characters (option i). -/
def tokMatch : RTok → Char → Bool
  | .dot, c => c != '\n'
  | .lit a, c => a.toLower == c.toLower

/-- Match the token list against the start of the text. -/
def matchHere : List RTok → List Char → Bool
  | [], _ => true
  | _ :: _, [] => false
  | t :: ts, c :: cs => tokMatch t c && matchHere ts cs

/-- Unanchored search: the pattern matches at some position of the text. -/
def regexFind (ts : List RTok) : List Char → Bool
  | [] => matchHere ts []
  | c :: rest => matchHere ts (c :: rest) || regexFind ts rest

/-! ## Case-insensitive substring matching (the wording of the spec)

The spec describes the search as a case-insensitive substring match.  These
definitions follow the words of the spec and are compared with the regex
model above. -/

/-- Caseless character comparison. -/
def charCi (a b : Char) : Bool := a.toLower == b.toLower

/-- q is a caseless prefix of the text. -/
def prefixCi : List Char → List Char → Bool
  | [], _ => true
  | _ :: _, [] => false
  | a :: as, b :: bs => charCi a b && prefixCi as bs

/-- q is a caseless substring of the text (at some position). -/
def substrCi (q : List Char) : List Char → Bool
  | [] => prefixCi q []
  | b :: bs => prefixCi q (b :: bs) || substrCi q bs

/-- q is a case-insensitive substring of s. -/
def ciSubstring (q s : String) : Bool := substrCi q.data s.data

/-- Regex metacharacters of PCRE; a query free of these is interpreted by
the store as a plain character sequence. -/
def isMeta (c : Char) : Bool :=
  c = '.' || c = '*' || c = '+' || c = '?' || c = '[' || c = ']' ||
  c = '(' || c = ')' || c = '\x7b' || c = '\x7d' || c = '|' ||
  c = '^' || c = '$' || c = '\\'

/-- The query contains no regex metacharacter. -/
def noMeta (q : String) : Bool := q.data.all (fun c => !(isMeta c))

/-! ## The search handler -/

/-- Match of the regex filter value against one optional field: a document
without the field does not match that disjunct. -/
def fieldRegexMatch (q : String) : Option String → Bool
  | none => false
  | some s => regexFind (parseRegex q) s.data

/-- The disjunctive filter built by search_customers (src/main.py lines
101 to 111): the document matches if any of the six fields matches the
regex. -/
def docMatches (q : String) (d : Doc) : Bool :=
  fieldRegexMatch q d.first_name || fieldRegexMatch q d.last_name ||
  fieldRegexMatch q d.phone || fieldRegexMatch q d.address ||
  fieldRegexMatch q d.postcode || fieldRegexMatch q d.email

/-- Result of the search endpoint: a 422 validation rejection produced by
the framework before the handler body runs, the 503 raised when the store
handle is None, or the serialized result list. -/
inductive SearchResult where
  | validationError : SearchResult
  | serviceUnavailable (detail : String) : SearchResult
  | ok (records : List CustomerOut) : SearchResult
deriving DecidableEq, Repr

/-- The records produced by a successful search: the store documents
matching the filter, in natural order, capped at the limit, serialized. -/
def searchResults (q : String) (limit : Int) (store : List Doc) : List CustomerOut :=
  (((store.filter (docMatches q)).take limit.toNat).map _serialize_customer)

/-- Embedding of the search endpoint (src/main.py lines 92 to 114).
Query validation (q at least 3 characters, limit between 1 and 100) is
performed by the framework before the handler body; the handler then
checks store availability and runs the filtered, capped find. -/
def search_customers (q : String) (limit : Int) (dbAvail : Bool)
    (store : List Doc) : SearchResult :=
  if q.length < 3 then .validationError
  else if limit < 1 || 100 < limit then .validationError
  else if !dbAvail then .serviceUnavailable "Database not available"
  else .ok (searchResults q limit store)

/-! ## The seed handler -/

/-- The five hardcoded sample records of seed_customers (src/main.py lines
126 to 132); they carry no "_id" key before insertion. -/
def samples : List Doc :=
  [ { _id := none, first_name := some "Alice", last_name := some "Johnson",
      phone := some "555-123-4567", address := some "12 Rainbow Rd",
      postcode := some "AB12 3CD", email := some "alice@example.com" },
    { _id := none, first_name := some "Bob", last_name := some "Smith",
      phone := some "555-987-1111", address := some "7 Sunset Blvd",
      postcode := some "XY98 7ZT", email := some "bob@example.com" },
    { _id := none, first_name := some "Charlie", last_name := some "Nguyen",
      phone := some "+44 7700 900123", address := some "99 Market Street",
      postcode := some "M1 2AB", email := some "charlie@example.com" },
    { _id := none, first_name := some "Diana", last_name := some "Lopez",
      phone := some "020 7946 0958", address := some "221B Baker Street",
      postcode := some "NW1 6XE", email := some "diana@example.com" },
    { _id := none, first_name := some "Ethan", last_name := some "Patel",
      phone := some "07911 123456", address := some "5 Kings Way",
      postcode := some "SW1A 1AA", email := some "ethan@example.com" } ]

/-- Python truthiness of s.get of the email key: present and non-empty. -/
def emailTruthy (d : Doc) : Bool :=
  match d.email with
  | some e => e != ""
  | none => false

/-- Model of find_one with the filter of an exact email equality: the first
document of the collection whose email field equals e. -/
def findOneByEmail (store : List Doc) (e : String) : Option Doc :=
  store.find? (fun d => d.email == some e)

/-- State threaded through the seed loop: the collection, the next fresh
ObjectId (insert_one assigns one), and the inserted counter. -/
structure SeedState where
  store : List Doc
  nextId : Nat
  inserted : Nat
deriving DecidableEq, Repr

/-- Model of insert_one: append the document with a fresh storage-assigned
ObjectId. -/
def insertOne (st : SeedState) (s : Doc) : SeedState :=
  { store := st.store ++
      [{ _id := some (.vOid (toString st.nextId)), first_name := s.first_name,
         last_name := s.last_name, phone := s.phone, address := s.address,
         postcode := s.postcode, email := s.email }],
    nextId := st.nextId + 1,
    inserted := st.inserted + 1 }

/-- One iteration of the seed loop (src/main.py lines 135 to 141): when the
sample has a truthy email, look an existing record up by that email and skip
the insert when one exists; otherwise insert unconditionally. -/
def seedStep (st : SeedState) (s : Doc) : SeedState :=
  let existing : Option Doc :=
    if emailTruthy s then findOneByEmail st.store (s.email.getD "") else none
  match existing with
  | some _ => st
  | none => insertOne st s

/-- Result of the seed endpoint: the 503 raised when the store handle is
None, or the inserted count, the total count after the loop, and the
resulting collection state. -/
inductive SeedResult where
  | serviceUnavailable (detail : String) : SeedResult
  | ok (inserted total : Nat) (store : List Doc) (nextId : Nat) : SeedResult
deriving DecidableEq, Repr

/-- Embedding of the seed endpoint (src/main.py lines 117 to 143): check
availability, run the dedup loop over the five samples, and report the
inserted count together with count_documents of the empty filter. -/
def seed_customers (dbAvail : Bool) (store : List Doc) (nextId : Nat) : SeedResult :=
  if !dbAvail then .serviceUnavailable "Database not available"
  else
    let final := samples.foldl seedStep ⟨store, nextId, 0⟩
    .ok final.inserted final.store.length final.store final.nextId

/-- Inserted count reported by a successful seed call. -/
def SeedResult.insertedCount : SeedResult → Option Nat
  | .ok i _ _ _ => some i
  | _ => none

/-- Total count reported by a successful seed call. -/
def SeedResult.totalCount : SeedResult → Option Nat
  | .ok _ t _ _ => some t
  | _ => none

/-- Collection state after a successful seed call (empty on failure). -/
def SeedResult.storeAfter : SeedResult → List Doc
  | .ok _ _ st _ => st
  | _ => []

/-- Fresh-id counter after a successful seed call (zero on failure). -/
def SeedResult.nextIdAfter : SeedResult → Nat
  | .ok _ _ _ n => n
  | _ => 0

/-! ## The diagnostic handler -/

/-- State of the store handle as seen by the diagnostic handler: the handle
is None, or it is a database object with an optional name attribute whose
list_collection_names call either returns the collection names or raises
with a message. -/
inductive DbState where
  | unavailable : DbState
  | available (name : Option String) (listColl : Except String (List String)) : DbState
deriving Repr

/-- Response body of the /test endpoint after all assignments; every field
holds its final value. -/
structure TestResponse where
  backend : String
  database : String
  database_url : String
  database_name : String
  connection_status : String
  collections : List String
deriving DecidableEq, Repr

/-- Python truthiness of os.getenv: the variable is set to a non-empty
string. -/
def envTruthy : Option String → Bool
  | some s => s != ""
  | none => false

/-- Python str slicing to the first 50 characters, str(e)[:50]. -/
def strTake50 (s : String) : String := ⟨s.data.take 50⟩

/-- Embedding of the /test endpoint (src/main.py lines 40 to 77).  The
handler fills a response dict: the database field and the collections list
depend on the handle state; connection_status is Connected exactly when the
handle is not None; the database_url and database_name fields are
overwritten at the end with the presence indicators of the two environment
variables.  The function is total: every path yields a body (HTTP 200). -/
def test_database (st : DbState) (dbUrl dbName : Option String) : TestResponse :=
  let dbAndColls : String × List String :=
    match st with
    | .unavailable => ("⚠️  Available but not initialized", [])
    | .available _ (.ok cols) => ("✅ Connected & Working", cols.take 10)
    | .available _ (.error e) => ("⚠️  Connected but Error: " ++ strTake50 e, [])
  { backend := "✅ Running"
    database := dbAndColls.1
    database_url := if envTruthy dbUrl then "✅ Set" else "❌ Not Set"
    database_name := if envTruthy dbName then "✅ Set" else "❌ Not Set"
    connection_status :=
      match st with
      | .unavailable => "Not Connected"
      | .available _ _ => "Connected"
    collections := dbAndColls.2 }

/-! ## Spec-side match predicate on serialized records

The spec states that every returned record has the query as a
case-insensitive substring of at least one of the six searchable fields.
These definitions follow the words of the spec, stated on the serialized
output records, and are compared with the behaviour of the handler. -/

/-- Caseless substring match against a nullable output field. -/
def outFieldCi (q : String) : Option String → Bool
  | none => false
  | some s => ciSubstring q s

/-- q is a case-insensitive substring of at least one of the six fields of
the serialized record. -/
def outSubstrAny (q : String) (r : CustomerOut) : Bool :=
  ciSubstring q r.first_name || ciSubstring q r.last_name ||
  outFieldCi q r.phone || outFieldCi q r.address ||
  outFieldCi q r.postcode || outFieldCi q r.email

/-! ## Lemmas: the regex model coincides with caseless substring matching
on metacharacter-free patterns -/

lemma matchHere_parseList (q : List Char) (hq : ∀ c ∈ q, c ≠ '.') (s : List Char) :
    matchHere (parseList q) s = prefixCi q s := by
  induction q generalizing s with
  | nil => cases s <;> rfl
  | cons a as ih =>
    have ha : a ≠ '.' := hq a (List.mem_cons_self a as)
    have has : ∀ c ∈ as, c ≠ '.' := fun c hc => hq c (List.mem_cons_of_mem a hc)
    cases s with
    | nil => simp [parseList, matchHere, prefixCi]
    | cons b bs =>
      simp only [parseList, List.map_cons, matchHere, if_neg ha, tokMatch,
        prefixCi, charCi]
      rw [show List.map (fun c => if c = '.' then RTok.dot else RTok.lit c) as
            = parseList as from rfl, ih has bs]

lemma regexFind_parseList (q : List Char) (hq : ∀ c ∈ q, c ≠ '.') (s : List Char) :
    regexFind (parseList q) s = substrCi q s := by
  induction s with
  | nil => simp [regexFind, substrCi, matchHere_parseList q hq]
  | cons b bs ih =>
    simp only [regexFind, substrCi, matchHere_parseList q hq, ih]

lemma noMeta_no_dot {q : String} (h : noMeta q = true) : ∀ c ∈ q.data, c ≠ '.' := by
  intro c hc
  have hall := (List.all_eq_true.mp h) c hc
  intro hdot
  subst hdot
  simp [isMeta] at hall

lemma fieldRegexMatch_substring {q : String} (h : noMeta q = true) {s : String}
    (hm : fieldRegexMatch q (some s) = true) : ciSubstring q s = true := by
  have := regexFind_parseList q.data (noMeta_no_dot h) s.data
  simpa [fieldRegexMatch, parseRegex, ciSubstring, this] using hm

lemma docMatches_outSubstrAny {q : String} (h : noMeta q = true) {d : Doc}
    (hm : docMatches q d = true) : outSubstrAny q (_serialize_customer d) = true := by
  simp only [docMatches, Bool.or_eq_true] at hm
  simp only [outSubstrAny, Bool.or_eq_true]
  rcases hm with ((((h1 | h2) | h3) | h4) | h5) | h6
  · rcases hf : d.first_name with _ | s
    · rw [hf] at h1; simp [fieldRegexMatch] at h1
    · rw [hf] at h1
      exact Or.inl <| Or.inl <| Or.inl <| Or.inl <| Or.inl <| by
        simpa [_serialize_customer, hf] using fieldRegexMatch_substring h h1
  · rcases hf : d.last_name with _ | s
    · rw [hf] at h2; simp [fieldRegexMatch] at h2
    · rw [hf] at h2
      exact Or.inl <| Or.inl <| Or.inl <| Or.inl <| Or.inr <| by
        simpa [_serialize_customer, hf] using fieldRegexMatch_substring h h2
  · rcases hf : d.phone with _ | s
    · rw [hf] at h3; simp [fieldRegexMatch] at h3
    · rw [hf] at h3
      exact Or.inl <| Or.inl <| Or.inl <| Or.inr <| by
        simpa [_serialize_customer, hf, outFieldCi] using fieldRegexMatch_substring h h3
  · rcases hf : d.address with _ | s
    · rw [hf] at h4; simp [fieldRegexMatch] at h4
    · rw [hf] at h4
      exact Or.inl <| Or.inl <| Or.inr <| by
        simpa [_serialize_customer, hf, outFieldCi] using fieldRegexMatch_substring h h4
  · rcases hf : d.postcode with _ | s
    · rw [hf] at h5; simp [fieldRegexMatch] at h5
    · rw [hf] at h5
      exact Or.inl <| Or.inr <| by
        simpa [_serialize_customer, hf, outFieldCi] using fieldRegexMatch_substring h h5
  · rcases hf : d.email with _ | s
    · rw [hf] at h6; simp [fieldRegexMatch] at h6
    · rw [hf] at h6
      exact Or.inr <| by
        simpa [_serialize_customer, hf, outFieldCi] using fieldRegexMatch_substring h h6

/-! ## Claim theorems -/

/-- C1 (counterexample). The claim states that for every valid q, every
record returned by the search has q as a case-insensitive substring of one
of its six fields, including when q contains regex metacharacters.  This is
false: the handler passes q unescaped as a regex, so the valid query "..."
(three wildcard characters) returns the stored Alice record even though
"..." is not a substring of any of its fields. -/
theorem search_substring_claim_false :
    (3 ≤ "...".length) ∧ (1 ≤ (25 : Int)) ∧ ((25 : Int) ≤ 100) ∧
    search_customers "..." 25 true
        [{ _id := some (.vOid "64a1"), first_name := some "Alice",
           last_name := some "Johnson", phone := some "555-123-4567",
           address := some "12 Rainbow Rd", postcode := some "AB12 3CD",
           email := some "alice@example.com" }] =
      .ok [{ id := "64a1", first_name := "Alice", last_name := "Johnson",
             phone := some "555-123-4567", address := some "12 Rainbow Rd",
             postcode := some "AB12 3CD", email := some "alice@example.com" }] ∧
    outSubstrAny "..."
        { id := "64a1", first_name := "Alice", last_name := "Johnson",
          phone := some "555-123-4567", address := some "12 Rainbow Rd",
          postcode := some "AB12 3CD", email := some "alice@example.com" } = false := by
  decide

/-- C1 (amended). For every valid q and valid limit the search returns at
most limit records; and whenever q contains no regex metacharacter, every
returned record has q as a case-insensitive substring of at least one of
its six fields.  (For q with metacharacters the filter performs regex
matching, not plain substring matching.) -/
theorem search_results_bounded_and_substring (q : String) (limit : Int)
    (store : List Doc) (hq : 3 ≤ q.length) (h1 : 1 ≤ limit) (h2 : limit ≤ 100) :
    search_customers q limit true store = .ok (searchResults q limit store) ∧
    (searchResults q limit store).length ≤ limit.toNat ∧
    (noMeta q = true →
      ∀ r ∈ searchResults q limit store, outSubstrAny q r = true) := by
  refine ⟨?_, ?_, ?_⟩
  · have hq3 : ¬ q.length < 3 := by omega
    have hl : ¬ (limit < 1 || 100 < limit : Bool) = true := by
      simp only [Bool.or_eq_true, decide_eq_true_eq]
      omega
    simp [search_customers, hq3, hl]
  · simp only [searchResults, List.length_map, List.length_take]
    exact min_le_left _ _
  · intro hmeta r hr
    simp only [searchResults] at hr
    obtain ⟨d, hd, rfl⟩ := List.mem_map.mp hr
    have hdf : d ∈ store.filter (docMatches q) := List.take_subset _ _ hd
    exact docMatches_outSubstrAny hmeta (List.mem_filter.mp hdf).2

/-- C1 (witness for the amended theorem): concrete valid query against a
one-record store. -/
theorem search_results_bounded_and_substring_witness :
    search_customers "Smith" 25 true
        [{ _id := some (.vOid "64a2"), first_name := some "Bob",
           last_name := some "Smith", phone := some "555-987-1111",
           address := some "7 Sunset Blvd", postcode := some "XY98 7ZT",
           email := some "bob@example.com" }] =
      .ok (searchResults "Smith" 25
        [{ _id := some (.vOid "64a2"), first_name := some "Bob",
           last_name := some "Smith", phone := some "555-987-1111",
           address := some "7 Sunset Blvd", postcode := some "XY98 7ZT",
           email := some "bob@example.com" }]) ∧
    (searchResults "Smith" 25
        [{ _id := some (.vOid "64a2"), first_name := some "Bob",
           last_name := some "Smith", phone := some "555-987-1111",
           address := some "7 Sunset Blvd", postcode := some "XY98 7ZT",
           email := some "bob@example.com" }]).length ≤ (25 : Int).toNat ∧
    (noMeta "Smith" = true →
      ∀ r ∈ searchResults "Smith" 25
        [{ _id := some (.vOid "64a2"), first_name := some "Bob",
           last_name := some "Smith", phone := some "555-987-1111",
           address := some "7 Sunset Blvd", postcode := some "XY98 7ZT",
           email := some "bob@example.com" }], outSubstrAny "Smith" r = true) :=
  search_results_bounded_and_substring "Smith" 25 _ (by decide) (by decide) (by decide)

/-- C2. Seeding an empty collection inserts all five samples and reports
inserted 5, total 5; running the seed again on the resulting collection
inserts nothing and reports inserted 0 with the same total 5. -/
theorem seed_idempotent_on_samples :
    (seed_customers true [] 0).insertedCount = some 5 ∧
    (seed_customers true [] 0).totalCount = some 5 ∧
    (seed_customers true (seed_customers true [] 0).storeAfter
        (seed_customers true [] 0).nextIdAfter).insertedCount = some 0 ∧
    (seed_customers true (seed_customers true [] 0).storeAfter
        (seed_customers true [] 0).nextIdAfter).totalCount = some 5 := by
  decide

/-- C3. Serialization contract: id is the string form of a storage-assigned
ObjectId identifier and the empty string when the identifier is absent;
first_name and last_name are the stored values defaulting to the empty
string (the output type makes them non-null); the other four fields pass
through, hence are null exactly when absent. -/
theorem serialize_customer_contract (d : Doc) :
    (d._id = none → (_serialize_customer d).id = "") ∧
    (∀ s, d._id = some (.vOid s) → (_serialize_customer d).id = pyStr (.vOid s)) ∧
    (_serialize_customer d).first_name = d.first_name.getD "" ∧
    (_serialize_customer d).last_name = d.last_name.getD "" ∧
    (_serialize_customer d).phone = d.phone ∧
    (_serialize_customer d).address = d.address ∧
    (_serialize_customer d).postcode = d.postcode ∧
    (_serialize_customer d).email = d.email := by
  refine ⟨fun h => ?_, fun s h => ?_, rfl, rfl, rfl, rfl, rfl, rfl⟩
  · simp [_serialize_customer, h]
  · simp [_serialize_customer, h, pyTruthy, pyStr]

/-- C3 (witness): one record with an assigned identifier and one without. -/
theorem serialize_customer_contract_witness :
    (_serialize_customer
        { _id := some (.vOid "64b0"), first_name := some "Ada",
          last_name := none, phone := none, address := none,
          postcode := none, email := some "ada@example.com" }).id =
      pyStr (.vOid "64b0") ∧
    (_serialize_customer
        { _id := none, first_name := none, last_name := some "Lovelace",
          phone := some "1", address := none, postcode := none,
          email := none }).id = "" :=
  ⟨(serialize_customer_contract _).2.1 "64b0" rfl,
   (serialize_customer_contract _).1 rfl⟩

/-- C4. Invalid query parameters (q shorter than 3 characters, or a limit
outside 1..100) are rejected with a validation error by the framework
before the handler body runs; the result is the same for every store state
and availability flag, so no storage operation is performed. -/
theorem search_invalid_params_rejected (q : String) (limit : Int)
    (dbAvail : Bool) (store : List Doc)
    (h : q.length < 3 ∨ limit < 1 ∨ 100 < limit) :
    search_customers q limit dbAvail store = SearchResult.validationError := by
  unfold search_customers
  split_ifs with h1 h2 h3
  · rfl
  · rfl
  all_goals
    exfalso
    simp only [Bool.or_eq_true, decide_eq_true_eq, not_or] at h2
    omega

/-- C4 (witness): a one-character query, a zero limit and an oversized
limit are each rejected. -/
theorem search_invalid_params_rejected_witness :
    search_customers "a" 25 true [] = SearchResult.validationError ∧
    search_customers "abcd" 0 true [] = SearchResult.validationError ∧
    search_customers "abcd" 101 true [] = SearchResult.validationError :=
  ⟨search_invalid_params_rejected "a" 25 true [] (Or.inl (by decide)),
   search_invalid_params_rejected "abcd" 0 true [] (Or.inr (Or.inl (by decide))),
   search_invalid_params_rejected "abcd" 101 true [] (Or.inr (Or.inr (by decide)))⟩

/-- C5. When the store handle is unavailable, both handlers answer with the
503 service-unavailable result carrying only the short detail string; the
result is the same for every collection state, so no storage operation is
performed. -/
theorem unavailable_store_503 (q : String) (limit : Int) (store : List Doc)
    (nextId : Nat) (hq : 3 ≤ q.length) (h1 : 1 ≤ limit) (h2 : limit ≤ 100) :
    search_customers q limit false store =
      SearchResult.serviceUnavailable "Database not available" ∧
    seed_customers false store nextId =
      SeedResult.serviceUnavailable "Database not available" := by
  constructor
  · have hq3 : ¬ q.length < 3 := by omega
    have hl : ¬ (limit < 1 || 100 < limit : Bool) = true := by
      simp only [Bool.or_eq_true, decide_eq_true_eq]
      omega
    simp [search_customers, hq3, hl]
  · rfl

/-- C5 (witness): a concrete valid request against the unavailable store. -/
theorem unavailable_store_503_witness :
    search_customers "abc" 25 false [] =
      SearchResult.serviceUnavailable "Database not available" ∧
    seed_customers false [] 0 =
      SeedResult.serviceUnavailable "Database not available" :=
  unavailable_store_503 "abc" 25 [] 0 (by decide) (by decide) (by decide)

/-- C6. One iteration of the seed loop, for an arbitrary candidate record
and collection state: with a truthy (present, non-empty) email the loop
looks an existing record up by that exact email and skips the insert when
one exists, inserting otherwise; with an empty or absent email it inserts
unconditionally, with no deduplication check.  The seed endpoint is exactly
the fold of this step over the five samples. -/
theorem seed_step_dedup_by_email (st : SeedState) (s : Doc) :
    (emailTruthy s = true →
      (findOneByEmail st.store (s.email.getD "")).isSome = true →
        seedStep st s = st) ∧
    (emailTruthy s = true →
      findOneByEmail st.store (s.email.getD "") = none →
        seedStep st s = insertOne st s) ∧
    (emailTruthy s = false → seedStep st s = insertOne st s) ∧
    (∀ store nextId, seed_customers true store nextId =
      SeedResult.ok (samples.foldl seedStep ⟨store, nextId, 0⟩).inserted
        (samples.foldl seedStep ⟨store, nextId, 0⟩).store.length
        (samples.foldl seedStep ⟨store, nextId, 0⟩).store
        (samples.foldl seedStep ⟨store, nextId, 0⟩).nextId) := by
  refine ⟨fun ht hex => ?_, fun ht hex => ?_, fun ht => ?_, fun store nextId => rfl⟩
  · obtain ⟨d, hd⟩ := Option.isSome_iff_exists.mp hex
    simp [seedStep, ht, hd]
  · simp [seedStep, ht, hex]
  · simp [seedStep, ht]

/-- C6 (witness): against a store already holding the Alice record, the
step skips the Alice sample; against the empty store it inserts it; a
record without any email is inserted even when an identical record is
already present. -/
theorem seed_step_dedup_by_email_witness :
    seedStep
        ⟨[{ _id := some (.vOid "0"), first_name := some "Alice",
            last_name := some "Johnson", phone := some "555-123-4567",
            address := some "12 Rainbow Rd", postcode := some "AB12 3CD",
            email := some "alice@example.com" }], 1, 0⟩
        { _id := none, first_name := some "Alice", last_name := some "Johnson",
          phone := some "555-123-4567", address := some "12 Rainbow Rd",
          postcode := some "AB12 3CD", email := some "alice@example.com" } =
      ⟨[{ _id := some (.vOid "0"), first_name := some "Alice",
          last_name := some "Johnson", phone := some "555-123-4567",
          address := some "12 Rainbow Rd", postcode := some "AB12 3CD",
          email := some "alice@example.com" }], 1, 0⟩ ∧
    seedStep ⟨[], 0, 0⟩
        { _id := none, first_name := some "Alice", last_name := some "Johnson",
          phone := some "555-123-4567", address := some "12 Rainbow Rd",
          postcode := some "AB12 3CD", email := some "alice@example.com" } =
      insertOne ⟨[], 0, 0⟩
        { _id := none, first_name := some "Alice", last_name := some "Johnson",
          phone := some "555-123-4567", address := some "12 Rainbow Rd",
          postcode := some "AB12 3CD", email := some "alice@example.com" } ∧
    seedStep
        ⟨[{ _id := some (.vOid "0"), first_name := some "NoMail",
            last_name := some "Person", phone := none, address := none,
            postcode := none, email := none }], 1, 0⟩
        { _id := none, first_name := some "NoMail", last_name := some "Person",
          phone := none, address := none, postcode := none, email := none } =
      insertOne
        ⟨[{ _id := some (.vOid "0"), first_name := some "NoMail",
            last_name := some "Person", phone := none, address := none,
            postcode := none, email := none }], 1, 0⟩
        { _id := none, first_name := some "NoMail", last_name := some "Person",
          phone := none, address := none, postcode := none, email := none } :=
  ⟨(seed_step_dedup_by_email _ _).1 (by decide) (by decide),
   (seed_step_dedup_by_email _ _).2.1 (by decide) (by decide),
   (seed_step_dedup_by_email _ _).2.2.1 (by decide)⟩

/-- C7. After seeding the empty collection, a search for Smith with the
default limit 25 returns exactly the serialized Bob Smith sample and no
other record. -/
theorem search_smith_after_seed :
    search_customers "Smith" 25 true (seed_customers true [] 0).storeAfter =
      SearchResult.ok
        [{ id := "1", first_name := "Bob", last_name := "Smith",
           phone := some "555-987-1111", address := some "7 Sunset Blvd",
           postcode := some "XY98 7ZT", email := some "bob@example.com" }] := by
  decide

/-- C8. The diagnostic handler is a total function: every store state yields
a response body (HTTP 200, never an exception).  Against the unavailable
handle the body reports the non-connected state; a reachable handle whose
listing succeeds reports the working state; a listing that raises is caught
and its message is truncated to at most 50 characters inside the reported
status string. -/
theorem diagnostic_never_raises (nm : Option String) (cols : List String)
    (e : String) (u v : Option String) :
    (test_database DbState.unavailable u v).connection_status = "Not Connected" ∧
    (test_database DbState.unavailable u v).database =
      "⚠️  Available but not initialized" ∧
    (test_database (DbState.available nm (Except.ok cols)) u v).database =
      "✅ Connected & Working" ∧
    (test_database (DbState.available nm (Except.ok cols)) u v).connection_status =
      "Connected" ∧
    (test_database (DbState.available nm (Except.error e)) u v).database =
      "⚠️  Connected but Error: " ++ strTake50 e ∧
    (strTake50 e).length ≤ 50 := by
  refine ⟨rfl, rfl, rfl, rfl, rfl, ?_⟩
  have hlen : (strTake50 e).length = (e.data.take 50).length := rfl
  rw [hlen, List.length_take]
  exact min_le_left _ _

/-- C9 (counterexample). The claim states that the database_url field
depends only on whether DATABASE_URL is set.  It is false: two runs that
both have the variable set, differing only in its value (empty versus
non-empty), produce different fields, because the handler tests Python
truthiness of the value rather than presence. -/
theorem env_presence_claim_false :
    (some "" : Option String).isSome = true ∧
    (some "mongodb://h" : Option String).isSome = true ∧
    (test_database DbState.unavailable (some "") none).database_url ≠
      (test_database DbState.unavailable (some "mongodb://h") none).database_url := by
  decide

/-- C9 (amended). The database_url and database_name fields of the
diagnostic response depend only on the Python truthiness of the two
environment variables (set to a non-empty value); two runs agreeing on
those truthiness bits, whatever the store state and the concrete values,
produce identical fields, and each field is always one of the two fixed
presence strings, never containing the value itself. -/
theorem env_presence_truthy_only (st st2 : DbState) (u1 u2 v1 v2 : Option String)
    (hu : envTruthy u1 = envTruthy u2) (hv : envTruthy v1 = envTruthy v2) :
    (test_database st u1 v1).database_url = (test_database st2 u2 v2).database_url ∧
    (test_database st u1 v1).database_name = (test_database st2 u2 v2).database_name ∧
    ((test_database st u1 v1).database_url = "✅ Set" ∨
      (test_database st u1 v1).database_url = "❌ Not Set") ∧
    ((test_database st u1 v1).database_name = "✅ Set" ∨
      (test_database st u1 v1).database_name = "❌ Not Set") := by
  have hurl : ∀ (s : DbState) (a b : Option String),
      (test_database s a b).database_url =
        if envTruthy a then "✅ Set" else "❌ Not Set" := fun s a b => rfl
  have hname : ∀ (s : DbState) (a b : Option String),
      (test_database s a b).database_name =
        if envTruthy b then "✅ Set" else "❌ Not Set" := fun s a b => rfl
  refine ⟨?_, ?_, ?_, ?_⟩
  · rw [hurl, hurl, hu]
  · rw [hname, hname, hv]
  · rw [hurl]
    rcases envTruthy u1 <;> simp
  · rw [hname]
    rcases envTruthy v1 <;> simp

/-- C9 (witness for the amended theorem): two runs with different store
states and different non-empty values. -/
theorem env_presence_truthy_only_witness :
    (test_database DbState.unavailable (some "mongodb://a") none).database_url =
      (test_database (DbState.available none (Except.ok []))
        (some "mongodb://b") none).database_url ∧
    (test_database DbState.unavailable (some "mongodb://a") none).database_name =
      (test_database (DbState.available none (Except.ok []))
        (some "mongodb://b") none).database_name ∧
    ((test_database DbState.unavailable (some "mongodb://a") none).database_url =
        "✅ Set" ∨
      (test_database DbState.unavailable (some "mongodb://a") none).database_url =
        "❌ Not Set") ∧
    ((test_database DbState.unavailable (some "mongodb://a") none).database_name =
        "✅ Set" ∨
      (test_database DbState.unavailable (some "mongodb://a") none).database_name =
        "❌ Not Set") :=
  env_presence_truthy_only DbState.unavailable (DbState.available none (Except.ok []))
    (some "mongodb://a") (some "mongodb://b") none none (by decide) (by decide)

/-- C10. The serializer maps the id field to the empty string exactly when
the "_id" value is falsy in the Python sense — absent, None, 0, or the
empty string — and produces the str form only for truthy values. -/
theorem serialize_id_falsy_empty (d : Doc) :
    (pyTruthyOpt d._id = false → (_serialize_customer d).id = "") ∧
    (∀ v, d._id = some v → pyTruthy v = true →
      (_serialize_customer d).id = pyStr v) := by
  constructor
  · intro h
    rcases hid : d._id with _ | v
    · simp [_serialize_customer, hid]
    · rw [hid] at h
      simp only [pyTruthyOpt] at h
      simp [_serialize_customer, hid, h]
  · intro v hv ht
    simp [_serialize_customer, hv, ht]

/-- C10 (witness): documents with "_id" absent, None, 0 and the empty
string all serialize to an empty id; a truthy ObjectId yields its str. -/
theorem serialize_id_falsy_empty_witness :
    (_serialize_customer
        { _id := none, first_name := none, last_name := none, phone := none,
          address := none, postcode := none, email := none }).id = "" ∧
    (_serialize_customer
        { _id := some BVal.vNone, first_name := none, last_name := none,
          phone := none, address := none, postcode := none, email := none }).id = "" ∧
    (_serialize_customer
        { _id := some (BVal.vInt 0), first_name := none, last_name := none,
          phone := none, address := none, postcode := none, email := none }).id = "" ∧
    (_serialize_customer
        { _id := some (BVal.vStr ""), first_name := none, last_name := none,
          phone := none, address := none, postcode := none, email := none }).id = "" ∧
    (_serialize_customer
        { _id := some (BVal.vOid "64cafe"), first_name := none, last_name := none,
          phone := none, address := none, postcode := none, email := none }).id =
      pyStr (BVal.vOid "64cafe") :=
  ⟨(serialize_id_falsy_empty _).1 (by decide),
   (serialize_id_falsy_empty _).1 (by decide),
   (serialize_id_falsy_empty _).1 (by decide),
   (serialize_id_falsy_empty _).1 (by decide),
   (serialize_id_falsy_empty _).2 (BVal.vOid "64cafe") rfl (by decide)⟩

end CustomerService
